import Mathlib

/-
  Verification development for the domain security assessment backend.

  The embedding follows src/backend/src/security-evaluator.js
  (evaluateSecurityStatus) and src/backend/src/server.js
  (runSecurityTests, runIndividualTests, and the evaluation choice made
  by the POST /api/test/:domainId handler).

  JavaScript dynamic values are embedded as follows: an object field that
  may be undefined becomes an Option; JS truthiness of an optional string
  (undefined or the empty string are falsy) is jsTruthy; String.includes
  is jsIncludes; Math.round applied to the score expression is jsRoundFrac
  (round half toward positive infinity, computed exactly on the integer
  numerator and denominator; jsRoundFrac_score relates it to the floor of
  the rational score expression plus one half).
-/

/-- A Findings Map entry is either the parsed probe payload or the error
marker object produced by the orchestrator on probe failure (in the
source: an object with an error message and a status field set to fail).
The error object carries none of the payload fields, so in the evaluator
every payload field read on it yields undefined, which is falsy. -/
inductive Entry (α : Type) where
  | payload (value : α)
  | errorEntry (message : String)
deriving DecidableEq

/-- Payload of the dmarc probe (spec section 6). -/
structure DmarcResult where
  has_dmarc : Bool
  policy : Option String
  rua : Option String
  ruf : Option String
deriving DecidableEq

/-- Payload of the spf probe (spec section 6). -/
structure SpfResult where
  has_spf : Bool
  all_mechanism : Option String
  warnings : List String
deriving DecidableEq

/-- Payload of the dkim probe (spec section 6). -/
structure DkimResult where
  has_dkim : Bool
  signature_valid : Bool
  key_length : Option String
deriving DecidableEq

/-- Payload of the mail_server probe (spec section 6). -/
structure MailServerResult where
  smtp_accessible : Bool
  supports_tls : Bool
  supports_auth : Bool
  response_time_ms : Int
deriving DecidableEq

/-- The testResults object passed to evaluateSecurityStatus: at most one
entry per known check name; a missing field is an absent check. -/
structure FindingsMap where
  dmarc : Option (Entry DmarcResult) := none
  spf : Option (Entry SpfResult) := none
  dkim : Option (Entry DkimResult) := none
  mail_server : Option (Entry MailServerResult) := none
deriving DecidableEq

/-- evaluation.test_statuses: per check, the assigned status string if the
evaluator assigned one. -/
structure TestStatuses where
  dmarc : Option String := none
  spf : Option String := none
  dkim : Option String := none
  mail_server : Option String := none
deriving DecidableEq

/-- The object returned by evaluateSecurityStatus. -/
structure SecurityEvaluation where
  overall_status : String
  overall_score : Int
  recommendations : List String
  test_statuses : TestStatuses
  risk_level : String
deriving DecidableEq

/-- JS truthiness of an optional string field: undefined and the empty
string are falsy. -/
def jsTruthy : Option String → Bool
  | none => false
  | some s => s != ""

/-- The pattern occurs as a contiguous run somewhere in the list. -/
def charsContainPat (pat : List Char) : List Char → Bool
  | [] => pat.isEmpty
  | c :: rest => pat.isPrefixOf (c :: rest) || charsContainPat pat rest

/-- JS String.includes: the pattern occurs as a substring. -/
def jsIncludes (s pat : String) : Bool := charsContainPat pat.data s.data

/-- The JS guard field && field.includes(pat) on an optional string field:
false when the field is undefined. -/
def jsOptIncludes (o : Option String) (pat : String) : Bool :=
  match o with
  | none => false
  | some s => jsIncludes s pat

/-- JS Math.round applied to the exact rational n / d with d positive:
Math.round x is the floor of x + 1/2, and floor of (2n + d) / (2d) is
integer division by the positive divisor 2d. -/
def jsRoundFrac (n : Int) (d : Nat) : Int := (2 * n + d) / (2 * (d : Int))

/-- The contribution of one evaluated check: its assigned status, its
increments to passedTests, criticalIssues and warningIssues, and the
recommendation strings it pushes, in push order.  Presence of the check
itself (the totalTests increment) is recorded separately. -/
structure CheckOutcome where
  status : Option String := none
  passed : Nat := 0
  critical : Nat := 0
  warning : Nat := 0
  recs : List String := []
deriving DecidableEq

/-- The else branch of the dmarc block: no DMARC record found.  An error
entry takes the same branch because its has_dmarc field is undefined. -/
def dmarcMissingOutcome : CheckOutcome :=
  { status := some "fail", critical := 1,
    recs := ["CRITICAL: No DMARC record found - implement DMARC to prevent email spoofing"] }

/-- The policy cascade inside the has_dmarc branch (lines 29 to 40): note
that a policy outside reject, quarantine and none assigns no status and
touches no counter. -/
def dmarcPolicyOutcome (d : DmarcResult) : CheckOutcome :=
  if d.policy = some "reject" then
    { status := some "pass", passed := 1 }
  else if d.policy = some "quarantine" then
    { status := some "warning", warning := 1,
      recs := ["Consider upgrading DMARC policy from \"quarantine\" to \"reject\" for stronger protection"] }
  else if d.policy = some "none" then
    { status := some "fail", critical := 1,
      recs := ["DMARC policy is set to \"none\" - upgrade to \"quarantine\" or \"reject\" to prevent email spoofing"] }
  else
    { }

/-- Evaluator block for the dmarc check (security-evaluator.js lines 24 to 51). -/
def dmarcOutcome : Entry DmarcResult → CheckOutcome
  | .errorEntry _ => dmarcMissingOutcome
  | .payload d =>
    if d.has_dmarc then
      if !jsTruthy d.rua && !jsTruthy d.ruf then
        { dmarcPolicyOutcome d with
          warning := (dmarcPolicyOutcome d).warning + 1
          recs := (dmarcPolicyOutcome d).recs
            ++ ["Configure DMARC reporting addresses (rua/ruf) to monitor email authentication"] }
      else dmarcPolicyOutcome d
    else dmarcMissingOutcome

/-- The else branch of the spf block: no SPF record found.  An error entry
takes the same branch because its has_spf field is undefined. -/
def spfMissingOutcome : CheckOutcome :=
  { status := some "fail", critical := 1,
    recs := ["CRITICAL: No SPF record found - implement SPF to specify authorized mail servers"] }

/-- The all-mechanism cascade inside the has_spf branch (lines 59 to 74). -/
def spfMechanismOutcome (p : SpfResult) : CheckOutcome :=
  if p.all_mechanism = some "-all" then
    { status := some "pass", passed := 1 }
  else if p.all_mechanism = some "~all" then
    { status := some "warning", warning := 1,
      recs := ["SPF uses soft fail (~all) - consider hard fail (-all) for stronger protection"] }
  else if p.all_mechanism = some "+all" then
    { status := some "fail", critical := 1,
      recs := ["CRITICAL: SPF allows all senders (+all) - this provides no protection"] }
  else
    { status := some "warning", warning := 1,
      recs := ["SPF record should end with -all or ~all mechanism"] }

/-- Evaluator block for the spf check (security-evaluator.js lines 54 to 86).
The auxiliary warnings list only pushes recommendation strings; it does not
touch warningIssues. -/
def spfOutcome : Entry SpfResult → CheckOutcome
  | .errorEntry _ => spfMissingOutcome
  | .payload p =>
    if p.has_spf then
      if p.warnings.length > 0 then
        { spfMechanismOutcome p with
          recs := (spfMechanismOutcome p).recs ++ p.warnings.map (fun w => "SPF Warning: " ++ w) }
      else spfMechanismOutcome p
    else spfMissingOutcome

/-- The final else branch of the dkim block: DKIM not detected.  An error
entry takes the same branch because its has_dkim field is undefined. -/
def dkimMissingOutcome : CheckOutcome :=
  { status := some "warning", warning := 1,
    recs := ["DKIM not detected with common selectors - ensure DKIM is properly configured"] }

/-- Evaluator block for the dkim check (security-evaluator.js lines 89 to 110). -/
def dkimOutcome : Entry DkimResult → CheckOutcome
  | .errorEntry _ => dkimMissingOutcome
  | .payload d =>
    if d.has_dkim && d.signature_valid then
      if jsOptIncludes d.key_length "1024" then
        { status := some "pass", passed := 1, warning := 1,
          recs := ["Consider upgrading DKIM key length to 2048 bits or higher for better security"] }
      else { status := some "pass", passed := 1 }
    else if d.has_dkim && !d.signature_valid then
      { status := some "fail", critical := 1,
        recs := ["DKIM record found but signature validation failed - check key configuration"] }
    else dkimMissingOutcome

/-- The else branch of the mail_server block: server not accessible.  An
error entry takes the same branch because its smtp_accessible field is
undefined. -/
def mailServerMissingOutcome : CheckOutcome :=
  { status := some "fail", critical := 1,
    recs := ["Mail server is not accessible - check server configuration"] }

/-- The TLS and AUTH cascade inside the smtp_accessible branch (lines 118
to 134). -/
def mailCapabilityOutcome (m : MailServerResult) : CheckOutcome :=
  if m.supports_tls && m.supports_auth then
    { status := some "pass", passed := 1 }
  else if m.supports_tls || m.supports_auth then
    { status := some "warning", warning := 1,
      recs := (if !m.supports_tls then ["Mail server should support TLS encryption"] else [])
        ++ (if !m.supports_auth then ["Mail server should support SMTP authentication"] else []) }
  else
    { status := some "fail", critical := 1,
      recs := ["Mail server lacks TLS and authentication support - security risk"] }

/-- Evaluator block for the mail_server check (security-evaluator.js lines
113 to 145). -/
def mailServerOutcome : Entry MailServerResult → CheckOutcome
  | .errorEntry _ => mailServerMissingOutcome
  | .payload m =>
    if m.smtp_accessible then
      if m.response_time_ms > 5000 then
        { mailCapabilityOutcome m with
          warning := (mailCapabilityOutcome m).warning + 1
          recs := (mailCapabilityOutcome m).recs
            ++ ["Mail server response time is slow - consider performance optimization"] }
      else mailCapabilityOutcome m
    else mailServerMissingOutcome

/-- One when the check is present in the Findings Map (the totalTests
increment at the head of each block), zero otherwise. -/
def present {α : Type} : Option (Entry α) → Nat
  | none => 0
  | some _ => 1

/-- The outcome of an optional check: an absent check contributes nothing
and gets no status. -/
def checkOutcome {α : Type} (f : Entry α → CheckOutcome) : Option (Entry α) → CheckOutcome
  | none => { }
  | some e => f e

def totalTestsOf (tr : FindingsMap) : Nat :=
  present tr.dmarc + present tr.spf + present tr.dkim + present tr.mail_server

def passedTestsOf (tr : FindingsMap) : Nat :=
  (checkOutcome dmarcOutcome tr.dmarc).passed + (checkOutcome spfOutcome tr.spf).passed
    + (checkOutcome dkimOutcome tr.dkim).passed + (checkOutcome mailServerOutcome tr.mail_server).passed

def criticalIssuesOf (tr : FindingsMap) : Nat :=
  (checkOutcome dmarcOutcome tr.dmarc).critical + (checkOutcome spfOutcome tr.spf).critical
    + (checkOutcome dkimOutcome tr.dkim).critical + (checkOutcome mailServerOutcome tr.mail_server).critical

def warningIssuesOf (tr : FindingsMap) : Nat :=
  (checkOutcome dmarcOutcome tr.dmarc).warning + (checkOutcome spfOutcome tr.spf).warning
    + (checkOutcome dkimOutcome tr.dkim).warning + (checkOutcome mailServerOutcome tr.mail_server).warning

/-- The recommendation list accumulated by the four blocks, in evaluation
order, before the global recommendation is prepended. -/
def baseRecsOf (tr : FindingsMap) : List String :=
  (checkOutcome dmarcOutcome tr.dmarc).recs ++ (checkOutcome spfOutcome tr.spf).recs
    ++ (checkOutcome dkimOutcome tr.dkim).recs ++ (checkOutcome mailServerOutcome tr.mail_server).recs

def testStatusesOf (tr : FindingsMap) : TestStatuses :=
  { dmarc := (checkOutcome dmarcOutcome tr.dmarc).status,
    spf := (checkOutcome spfOutcome tr.spf).status,
    dkim := (checkOutcome dkimOutcome tr.dkim).status,
    mail_server := (checkOutcome mailServerOutcome tr.mail_server).status }

/-- Lines 148 to 154: overall_status starts as pass and is downgraded on
critical or warning issues. -/
def overallStatusOf (tr : FindingsMap) : String :=
  if criticalIssuesOf tr > 0 then "fail"
  else if warningIssuesOf tr > 0 then "warning"
  else "pass"

/-- Lines 148 to 154: risk_level starts as LOW and is raised on critical
or warning issues. -/
def riskLevelOf (tr : FindingsMap) : String :=
  if criticalIssuesOf tr > 0 then "HIGH"
  else if warningIssuesOf tr > 0 then "MEDIUM"
  else "LOW"

/-- Lines 156 to 163: the score is recomputed only when totalTests is
positive; otherwise the initial value 100 is kept. -/
def scoreOf (totalTests passedTests warningIssues criticalIssues : Nat) : Int :=
  if totalTests > 0 then
    max 0 (jsRoundFrac
      (100 * (passedTests : Int)
        - (5 * (warningIssues : Int) + 20 * (criticalIssues : Int)) * (totalTests : Int))
      totalTests)
  else 100

def overallScoreOf (tr : FindingsMap) : Int :=
  scoreOf (totalTestsOf tr) (passedTestsOf tr) (warningIssuesOf tr) (criticalIssuesOf tr)

/-- Lines 165 to 170: the global recommendation prepended by unshift. -/
def recommendationsOf (tr : FindingsMap) : List String :=
  if overallScoreOf tr < 70 then
    "URGENT: Multiple critical security issues detected - immediate action required" :: baseRecsOf tr
  else if overallScoreOf tr < 90 then
    "Several security improvements recommended to enhance email security" :: baseRecsOf tr
  else baseRecsOf tr

/-- evaluateSecurityStatus (security-evaluator.js lines 9 to 173). -/
def evaluateSecurityStatus (tr : FindingsMap) : SecurityEvaluation :=
  { overall_status := overallStatusOf tr,
    overall_score := overallScoreOf tr,
    recommendations := recommendationsOf tr,
    test_statuses := testStatusesOf tr,
    risk_level := riskLevelOf tr }

/-- server.js line 482: a failed probe invocation is folded into the
findings as an object carrying the error message and a fail status; a
successful one contributes its parsed JSON payload. -/
def foldProbe {α : Type} : Except String α → Entry α
  | .ok a => .payload a
  | .error msg => .errorEntry msg

/-- runIndividualTests (server.js lines 466 to 487): the four probes are
attempted independently, in order, and each failure is recorded as an
error entry for its own check only.  The external probe processes are
abstracted as the four outcome arguments. -/
def runIndividualTests (rd : Except String DmarcResult) (rs : Except String SpfResult)
    (rk : Except String DkimResult) (rm : Except String MailServerResult) : FindingsMap :=
  { dmarc := some (foldProbe rd)
    spf := some (foldProbe rs)
    dkim := some (foldProbe rk)
    mail_server := some (foldProbe rm) }

/-- The JSON document parsed from a successful run of the unified runner
(server.js lines 443 to 447): four findings fields plus the embedded
security_evaluation; any of them may be absent from the document. -/
structure TestRunnerOutput where
  dmarc : Option (Entry DmarcResult) := none
  spf : Option (Entry SpfResult) := none
  dkim : Option (Entry DkimResult) := none
  mail_server : Option (Entry MailServerResult) := none
  security_evaluation : Option SecurityEvaluation := none
deriving DecidableEq

/-- What runSecurityTests hands to the request handler: the findings plus
the optional evaluation carried over from the unified runner. -/
structure ResultsWithEval where
  findings : FindingsMap
  runner_evaluation : Option SecurityEvaluation
deriving DecidableEq

/-- runSecurityTests (server.js lines 438 to 463): the unified runner is
tried first; on success its four findings and its embedded evaluation are
returned; on any failure (non-zero exit, timeout, malformed JSON) the
whole per-probe fallback runs instead and no runner evaluation is kept. -/
def runSecurityTests (unified : Except String TestRunnerOutput)
    (rd : Except String DmarcResult) (rs : Except String SpfResult)
    (rk : Except String DkimResult) (rm : Except String MailServerResult) : ResultsWithEval :=
  match unified with
  | .ok out =>
    { findings := { dmarc := out.dmarc, spf := out.spf, dkim := out.dkim, mail_server := out.mail_server }
      runner_evaluation := out.security_evaluation }
  | .error _ =>
    { findings := runIndividualTests rd rs rk rm
      runner_evaluation := none }

/-- The evaluation choice made by the POST /api/test/:domainId handler
(server.js lines 342 to 353): the runner evaluation is used when present,
otherwise evaluateSecurityStatus is invoked on the findings. -/
def chooseEvaluation (r : ResultsWithEval) : SecurityEvaluation :=
  match r.runner_evaluation with
  | some e => e
  | none => evaluateSecurityStatus r.findings

/-- A Findings Map holding a single dmarc finding with a quarantine policy
and a configured aggregate reporting address. -/
def quarantineOnlyMap : FindingsMap :=
  { dmarc := some (.payload
      { has_dmarc := true, policy := some "quarantine",
        rua := some "mailto:reports@example.com", ruf := none }) }

/-- An SPF payload that passes with a hard fail mechanism but carries one
auxiliary warning string. -/
def spfWarningPayload : SpfResult :=
  { has_spf := true, all_mechanism := some "-all", warnings := ["Multiple SPF records found"] }

/-- A Findings Map whose only check is spfWarningPayload. -/
def spfWarningMap : FindingsMap := { spf := some (.payload spfWarningPayload) }

/-- A Findings Map in which the dkim probe failed and was folded in as an
error entry while the other three probes returned passing payloads. -/
def dkimErrorMap : FindingsMap :=
  { dmarc := some (.payload
      { has_dmarc := true, policy := some "reject",
        rua := some "mailto:reports@example.com", ruf := none })
    spf := some (.payload { has_spf := true, all_mechanism := some "-all", warnings := [] })
    dkim := some (.errorEntry "Python script test_dkim.py timed out after 60 seconds")
    mail_server := some (.payload
      { smtp_accessible := true, supports_tls := true, supports_auth := true,
        response_time_ms := 120 }) }

/-- tr2 extends tr by exactly one additional check entry whose evaluator
status resolves to fail, holding the other three entries fixed. -/
def AddsFailCheck (tr tr2 : FindingsMap) : Prop :=
  (tr.dmarc = none ∧ (∃ e, tr2.dmarc = some e ∧ (dmarcOutcome e).status = some "fail")
    ∧ tr2.spf = tr.spf ∧ tr2.dkim = tr.dkim ∧ tr2.mail_server = tr.mail_server)
  ∨ (tr.spf = none ∧ (∃ e, tr2.spf = some e ∧ (spfOutcome e).status = some "fail")
    ∧ tr2.dmarc = tr.dmarc ∧ tr2.dkim = tr.dkim ∧ tr2.mail_server = tr.mail_server)
  ∨ (tr.dkim = none ∧ (∃ e, tr2.dkim = some e ∧ (dkimOutcome e).status = some "fail")
    ∧ tr2.dmarc = tr.dmarc ∧ tr2.spf = tr.spf ∧ tr2.mail_server = tr.mail_server)
  ∨ (tr.mail_server = none ∧ (∃ e, tr2.mail_server = some e ∧ (mailServerOutcome e).status = some "fail")
    ∧ tr2.dmarc = tr.dmarc ∧ tr2.spf = tr.spf ∧ tr2.dkim = tr.dkim)

/-- The dmarc entry resolves to PASS and fires no reporting-address
warning: record present with a reject policy and rua or ruf configured. -/
def dmarcPassClean : Option (Entry DmarcResult) → Bool
  | none => true
  | some (.errorEntry _) => false
  | some (.payload d) =>
    d.has_dmarc && decide (d.policy = some "reject") && (jsTruthy d.rua || jsTruthy d.ruf)

/-- The spf entry resolves to PASS with an empty auxiliary warning list. -/
def spfPassClean : Option (Entry SpfResult) → Bool
  | none => true
  | some (.errorEntry _) => false
  | some (.payload p) =>
    p.has_spf && decide (p.all_mechanism = some "-all") && decide (p.warnings = [])

/-- The dkim entry resolves to PASS and reports no 1024-bit key. -/
def dkimPassClean : Option (Entry DkimResult) → Bool
  | none => true
  | some (.errorEntry _) => false
  | some (.payload d) =>
    d.has_dkim && d.signature_valid && !jsOptIncludes d.key_length "1024"

/-- The mail_server entry resolves to PASS and is not slow. -/
def mailPassClean : Option (Entry MailServerResult) → Bool
  | none => true
  | some (.errorEntry _) => false
  | some (.payload m) =>
    m.smtp_accessible && m.supports_tls && m.supports_auth
      && decide (m.response_time_ms ≤ 5000)

/-- All four checks passing cleanly: spec section 8 scenario 1. -/
def allPassMap : FindingsMap :=
  { dmarc := some (.payload
      { has_dmarc := true, policy := some "reject",
        rua := some "mailto:reports@example.com", ruf := none })
    spf := some (.payload { has_spf := true, all_mechanism := some "-all", warnings := [] })
    dkim := some (.payload { has_dkim := true, signature_valid := true, key_length := some "2048" })
    mail_server := some (.payload
      { smtp_accessible := true, supports_tls := true, supports_auth := true,
        response_time_ms := 120 }) }

/-- The unified runner output used in the claim C8 witness: it embeds the
all-pass evaluation. -/
def runnerOutputEx : TestRunnerOutput :=
  { dmarc := allPassMap.dmarc, spf := allPassMap.spf, dkim := allPassMap.dkim,
    mail_server := allPassMap.mail_server,
    security_evaluation := some (evaluateSecurityStatus allPassMap) }

/-- A Findings Map whose dmarc payload carries a policy outside the three
recognized values. -/
def unknownPolicyMap : FindingsMap :=
  { dmarc := some (.payload
      { has_dmarc := true, policy := some "monitor",
        rua := some "mailto:reports@example.com", ruf := none }) }

/-- jsRoundFrac computes Math.round of the score expression
(passed / total) * 100 - warnings * 5 - criticals * 20. -/
theorem jsRoundFrac_score (t p w c : Nat) (ht : 0 < t) :
    jsRoundFrac (100 * (p : Int) - (5 * (w : Int) + 20 * (c : Int)) * (t : Int)) t
      = Int.floor ((p : ℚ) / (t : ℚ) * 100 - (w : ℚ) * 5 - (c : ℚ) * 20 + 1/2) := by
  have hq : (p : ℚ) / (t : ℚ) * 100 - (w : ℚ) * 5 - (c : ℚ) * 20 + 1/2
      = ((2 * (100 * (p : Int) - (5 * (w : Int) + 20 * (c : Int)) * (t : Int)) + (t : Int) : Int) : ℚ)
        / ((2 * t : ℕ) : ℚ) := by
    have htq : (t : ℚ) ≠ 0 := by positivity
    push_cast
    field_simp
    ring
  rw [hq, Rat.floor_intCast_div_natCast]
  unfold jsRoundFrac
  push_cast
  ring_nf

/-- For a nonempty Findings Map the score is Math.round of
baseScore - warningPenalty - criticalPenalty, clamped at 0, exactly as on
lines 156 to 163 of the source. -/
theorem scoreOf_pos_eq (t p w c : Nat) (ht : 0 < t) :
    scoreOf t p w c
      = max 0 (Int.floor ((p : ℚ) / (t : ℚ) * 100 - (w : ℚ) * 5 - (c : ℚ) * 20 + 1/2)) := by
  unfold scoreOf
  rw [if_pos ht, jsRoundFrac_score t p w c ht]

example :
    (evaluateSecurityStatus
      { dmarc := some (.payload { has_dmarc := false, policy := none, rua := none, ruf := none })
        spf := some (.payload { has_spf := true, all_mechanism := some "-all", warnings := [] })
        dkim := some (.payload { has_dkim := true, signature_valid := true, key_length := some "2048" })
        mail_server := some (.payload { smtp_accessible := true, supports_tls := true, supports_auth := true, response_time_ms := 120 }) }).overall_score = 55 := by
  decide

theorem dmarcOutcome_passed_le (e : Entry DmarcResult) : (dmarcOutcome e).passed ≤ 1 := by
  cases e with
  | errorEntry m => exact Nat.zero_le 1
  | payload d =>
    simp only [dmarcOutcome, dmarcPolicyOutcome, dmarcMissingOutcome]
    split_ifs <;> simp

theorem spfOutcome_passed_le (e : Entry SpfResult) : (spfOutcome e).passed ≤ 1 := by
  cases e with
  | errorEntry m => exact Nat.zero_le 1
  | payload p =>
    simp only [spfOutcome, spfMechanismOutcome, spfMissingOutcome]
    split_ifs <;> simp

theorem dkimOutcome_passed_le (e : Entry DkimResult) : (dkimOutcome e).passed ≤ 1 := by
  cases e with
  | errorEntry m => exact Nat.zero_le 1
  | payload d =>
    simp only [dkimOutcome, dkimMissingOutcome]
    split_ifs <;> simp

theorem mailServerOutcome_passed_le (e : Entry MailServerResult) : (mailServerOutcome e).passed ≤ 1 := by
  cases e with
  | errorEntry m => exact Nat.zero_le 1
  | payload m =>
    simp only [mailServerOutcome, mailCapabilityOutcome, mailServerMissingOutcome]
    split_ifs <;> simp

theorem checkOutcome_passed_le {α : Type} (f : Entry α → CheckOutcome)
    (hf : ∀ e, (f e).passed ≤ 1) (x : Option (Entry α)) :
    (checkOutcome f x).passed ≤ present x := by
  cases x with
  | none => simp [checkOutcome, present]
  | some e => simpa [checkOutcome, present] using hf e

theorem passedTestsOf_le (tr : FindingsMap) : passedTestsOf tr ≤ totalTestsOf tr := by
  unfold passedTestsOf totalTestsOf
  have h1 := checkOutcome_passed_le dmarcOutcome dmarcOutcome_passed_le tr.dmarc
  have h2 := checkOutcome_passed_le spfOutcome spfOutcome_passed_le tr.spf
  have h3 := checkOutcome_passed_le dkimOutcome dkimOutcome_passed_le tr.dkim
  have h4 := checkOutcome_passed_le mailServerOutcome mailServerOutcome_passed_le tr.mail_server
  omega

theorem dmarcOutcome_fail (e : Entry DmarcResult)
    (h : (dmarcOutcome e).status = some "fail") :
    (dmarcOutcome e).passed = 0 ∧ (dmarcOutcome e).critical = 1 := by
  cases e with
  | errorEntry m => exact ⟨rfl, rfl⟩
  | payload d =>
    simp only [dmarcOutcome, dmarcPolicyOutcome, dmarcMissingOutcome] at h ⊢
    split_ifs at h ⊢ <;> simp_all

theorem spfOutcome_fail (e : Entry SpfResult)
    (h : (spfOutcome e).status = some "fail") :
    (spfOutcome e).passed = 0 ∧ (spfOutcome e).critical = 1 := by
  cases e with
  | errorEntry m => exact ⟨rfl, rfl⟩
  | payload p =>
    simp only [spfOutcome, spfMechanismOutcome, spfMissingOutcome] at h ⊢
    split_ifs at h ⊢ <;> simp_all

theorem dkimOutcome_fail (e : Entry DkimResult)
    (h : (dkimOutcome e).status = some "fail") :
    (dkimOutcome e).passed = 0 ∧ (dkimOutcome e).critical = 1 := by
  cases e with
  | errorEntry m => simp [dkimOutcome, dkimMissingOutcome] at h
  | payload d =>
    simp only [dkimOutcome, dkimMissingOutcome] at h ⊢
    split_ifs at h ⊢ <;> simp_all

theorem mailServerOutcome_fail (e : Entry MailServerResult)
    (h : (mailServerOutcome e).status = some "fail") :
    (mailServerOutcome e).passed = 0 ∧ (mailServerOutcome e).critical = 1 := by
  cases e with
  | errorEntry m => exact ⟨rfl, rfl⟩
  | payload m =>
    simp only [mailServerOutcome, mailCapabilityOutcome, mailServerMissingOutcome] at h ⊢
    split_ifs at h ⊢ <;> simp_all

theorem scoreOf_nonneg (t p w c : Nat) : 0 ≤ scoreOf t p w c := by
  unfold scoreOf
  split
  · exact le_max_left 0 _
  · norm_num

theorem scoreOf_le_100 (t p w c : Nat) (hp : p ≤ t) : scoreOf t p w c ≤ 100 := by
  rcases Nat.eq_zero_or_pos t with ht | ht
  · subst ht
    simp [scoreOf]
  · rw [scoreOf_pos_eq t p w c ht]
    have harg : (p : ℚ) / (t : ℚ) * 100 - (w : ℚ) * 5 - (c : ℚ) * 20 + 1/2 < 101 := by
      have hdiv : (p : ℚ) / (t : ℚ) ≤ 1 := by
        rw [div_le_one (by exact_mod_cast ht)]
        exact_mod_cast hp
      have hw : (0 : ℚ) ≤ (w : ℚ) * 5 := by positivity
      have hc : (0 : ℚ) ≤ (c : ℚ) * 20 := by positivity
      nlinarith
    have hfl : Int.floor ((p : ℚ) / (t : ℚ) * 100 - (w : ℚ) * 5 - (c : ℚ) * 20 + 1/2) ≤ 100 := by
      rw [Int.floor_le_iff]
      push_cast
      linarith
    simp only [max_le_iff]
    constructor
    · norm_num
    · exact hfl

theorem scoreOf_all_pass (t : Nat) : scoreOf t t 0 0 = 100 := by
  rcases Nat.eq_zero_or_pos t with ht | ht
  · subst ht
    simp [scoreOf]
  · rw [scoreOf_pos_eq t t 0 0 ht]
    have htq : (t : ℚ) ≠ 0 := by
      exact_mod_cast Nat.pos_iff_ne_zero.mp ht
    have harg : (t : ℚ) / (t : ℚ) * 100 - ((0 : ℕ) : ℚ) * 5 - ((0 : ℕ) : ℚ) * 20 + 1/2
        = 201/2 := by
      rw [div_self htq]
      push_cast
      ring
    rw [harg]
    have hfl : Int.floor ((201 : ℚ)/2) = 100 := by
      rw [Int.floor_eq_iff]
      constructor <;> norm_num
    rw [hfl]
    norm_num

theorem scoreOf_fail_mono (t p w c dw : Nat) (hp : p ≤ t) :
    scoreOf (t + 1) p (w + dw) (c + 1) ≤ scoreOf t p w c := by
  rcases Nat.eq_zero_or_pos t with ht | ht
  · subst ht
    have h1 : scoreOf (0 + 1) p (w + dw) (c + 1) ≤ 100 :=
      scoreOf_le_100 _ p _ _ (by omega)
    have h2 : scoreOf 0 p w c = 100 := by simp [scoreOf]
    omega
  · have ht1 : 0 < t + 1 := Nat.succ_pos t
    rw [scoreOf_pos_eq t p w c ht, scoreOf_pos_eq (t + 1) p (w + dw) (c + 1) ht1]
    apply max_le_max le_rfl
    apply Int.floor_le_floor
    have htq : (0 : ℚ) < (t : ℚ) := by exact_mod_cast ht
    have hdiv : (p : ℚ) / ((t : ℚ) + 1) ≤ (p : ℚ) / (t : ℚ) := by
      apply div_le_div_of_nonneg_left (by positivity) htq
      linarith
    push_cast
    have hw5 : (w : ℚ) * 5 ≤ ((w : ℚ) + (dw : ℚ)) * 5 := by
      have : (0 : ℚ) ≤ (dw : ℚ) := by positivity
      nlinarith
    nlinarith

/-- Claim C1 as stated is false: risk_level is not a function of
overall_score with the 70/90 thresholds.  On a Findings Map whose only
check is a quarantine-policy DMARC record with reporting configured, the
score is 0 (below 70) yet the risk level is MEDIUM, because the source
derives risk_level from the issue counters before the score exists. -/
theorem risk_threshold_counterexample :
    (evaluateSecurityStatus quarantineOnlyMap).overall_score < 70
    ∧ (evaluateSecurityStatus quarantineOnlyMap).risk_level ≠ "HIGH" := by
  decide

/-- Claim C1 amended: risk_level is a pure function of the issue counters,
mirroring overall_status: HIGH exactly when overall_status is fail,
MEDIUM exactly when it is warning, LOW exactly when it is pass. -/
theorem risk_level_mirrors_overall_status (tr : FindingsMap) :
    ((evaluateSecurityStatus tr).overall_status = "fail"
      ∧ (evaluateSecurityStatus tr).risk_level = "HIGH")
    ∨ ((evaluateSecurityStatus tr).overall_status = "warning"
      ∧ (evaluateSecurityStatus tr).risk_level = "MEDIUM")
    ∨ ((evaluateSecurityStatus tr).overall_status = "pass"
      ∧ (evaluateSecurityStatus tr).risk_level = "LOW") := by
  have hs : (evaluateSecurityStatus tr).overall_status = overallStatusOf tr := rfl
  have hr : (evaluateSecurityStatus tr).risk_level = riskLevelOf tr := rfl
  rw [hs, hr]
  unfold overallStatusOf riskLevelOf
  split_ifs <;> simp

/-- Claim C2 as stated is false: on the empty Findings Map (totalChecks
zero) the evaluator keeps its initial values, returning a score of 100 and
a LOW risk level, not 0 and HIGH. -/
theorem empty_map_counterexample :
    ¬ ((evaluateSecurityStatus { }).overall_score = 0
      ∧ (evaluateSecurityStatus { }).risk_level = "HIGH") := by
  decide

/-- Claim C2 amended: when none of the four known check names is present,
evaluateSecurityStatus returns the untouched initial evaluation values:
overall_score 100, overall_status pass, risk_level LOW. -/
theorem empty_map_defaults (tr : FindingsMap)
    (h1 : tr.dmarc = none) (h2 : tr.spf = none)
    (h3 : tr.dkim = none) (h4 : tr.mail_server = none) :
    (evaluateSecurityStatus tr).overall_score = 100
    ∧ (evaluateSecurityStatus tr).overall_status = "pass"
    ∧ (evaluateSecurityStatus tr).risk_level = "LOW" := by
  obtain ⟨d, s, k, m⟩ := tr
  dsimp only at h1 h2 h3 h4
  subst h1 h2 h3 h4
  decide

/-- Witness for the amended claim C2 on the literal empty map. -/
theorem empty_map_defaults_witness :
    (evaluateSecurityStatus { }).overall_score = 100
    ∧ (evaluateSecurityStatus { }).overall_status = "pass"
    ∧ (evaluateSecurityStatus { }).risk_level = "LOW" :=
  empty_map_defaults { } rfl rfl rfl rfl

/-- Claim C7: the overall score is an integer between 0 and 100; in
particular the clamp at 0 holds no matter how large the penalties are. -/
theorem overall_score_range (tr : FindingsMap) :
    0 ≤ (evaluateSecurityStatus tr).overall_score
    ∧ (evaluateSecurityStatus tr).overall_score ≤ 100 :=
  ⟨scoreOf_nonneg _ _ _ _, scoreOf_le_100 _ _ _ _ (passedTestsOf_le tr)⟩

/-- Claim C9: evaluateSecurityStatus is deterministic and stateless; two
calls on the same Findings Map give identical evaluations. -/
theorem evaluate_deterministic (tr : FindingsMap) (e1 e2 : SecurityEvaluation)
    (h1 : e1 = evaluateSecurityStatus tr) (h2 : e2 = evaluateSecurityStatus tr) :
    e1 = e2 := by
  subst h1
  subst h2
  rfl

/-- Witness for claim C9 on a concrete Findings Map. -/
theorem evaluate_deterministic_witness :
    evaluateSecurityStatus quarantineOnlyMap = evaluateSecurityStatus quarantineOnlyMap :=
  evaluate_deterministic quarantineOnlyMap _ _ rfl rfl

theorem spfOutcome_clear_warnings (p : SpfResult) (hs : p.has_spf = true) :
    spfOutcome (.payload p)
      = { spfOutcome (.payload { p with warnings := [] }) with
          recs := (spfOutcome (.payload { p with warnings := [] })).recs
            ++ p.warnings.map (fun w => "SPF Warning: " ++ w) } := by
  have hz : spfOutcome (.payload { p with warnings := [] }) = spfMechanismOutcome p := by
    simp [spfOutcome, hs, spfMechanismOutcome]
  rw [hz]
  simp only [spfOutcome, hs, if_true]
  cases hw : p.warnings with
  | nil => simp [spfMechanismOutcome]
  | cons a l => simp

theorem mem_base_recommendations (tr : FindingsMap) (x : String)
    (h : x ∈ baseRecsOf tr) : x ∈ (evaluateSecurityStatus tr).recommendations := by
  have hr : (evaluateSecurityStatus tr).recommendations = recommendationsOf tr := rfl
  rw [hr]
  unfold recommendationsOf
  split_ifs <;> simp [h]

/-- Claim C3 as stated is false: an auxiliary SPF warning does not count
as a warning trigger.  With a passing SPF record carrying one auxiliary
warning, the evaluator returns a pass status and a score of 100 (not 95),
while still propagating the warning into the recommendations. -/
theorem spf_aux_warning_counterexample :
    (evaluateSecurityStatus spfWarningMap).overall_status = "pass"
    ∧ (evaluateSecurityStatus spfWarningMap).overall_score = 100
    ∧ (evaluateSecurityStatus spfWarningMap).recommendations
        = ["SPF Warning: Multiple SPF records found"] := by
  decide

/-- Claim C3 amended: auxiliary SPF warnings are propagated verbatim into
the recommendations prefixed with SPF Warning, but they are not warning
triggers: erasing them changes neither score, status, risk level nor any
per-check status. -/
theorem spf_aux_warnings_propagate_only (tr : FindingsMap) (p : SpfResult)
    (hp : tr.spf = some (.payload p)) (hs : p.has_spf = true) :
    (evaluateSecurityStatus tr).overall_score
        = (evaluateSecurityStatus { tr with spf := some (.payload { p with warnings := [] }) }).overall_score
    ∧ (evaluateSecurityStatus tr).overall_status
        = (evaluateSecurityStatus { tr with spf := some (.payload { p with warnings := [] }) }).overall_status
    ∧ (evaluateSecurityStatus tr).risk_level
        = (evaluateSecurityStatus { tr with spf := some (.payload { p with warnings := [] }) }).risk_level
    ∧ (evaluateSecurityStatus tr).test_statuses
        = (evaluateSecurityStatus { tr with spf := some (.payload { p with warnings := [] }) }).test_statuses
    ∧ ∀ w ∈ p.warnings, ("SPF Warning: " ++ w) ∈ (evaluateSecurityStatus tr).recommendations := by
  have hdecomp := spfOutcome_clear_warnings p hs
  obtain ⟨d, s, k, m⟩ := tr
  dsimp only at hp
  subst hp
  have htotal : totalTestsOf ⟨d, some (.payload p), k, m⟩
      = totalTestsOf ⟨d, some (.payload { p with warnings := [] }), k, m⟩ := rfl
  have hpassed : passedTestsOf ⟨d, some (.payload p), k, m⟩
      = passedTestsOf ⟨d, some (.payload { p with warnings := [] }), k, m⟩ := by
    simp [passedTestsOf, checkOutcome, hdecomp]
  have hcrit : criticalIssuesOf ⟨d, some (.payload p), k, m⟩
      = criticalIssuesOf ⟨d, some (.payload { p with warnings := [] }), k, m⟩ := by
    simp [criticalIssuesOf, checkOutcome, hdecomp]
  have hwarn : warningIssuesOf ⟨d, some (.payload p), k, m⟩
      = warningIssuesOf ⟨d, some (.payload { p with warnings := [] }), k, m⟩ := by
    simp [warningIssuesOf, checkOutcome, hdecomp]
  have hscore : overallScoreOf ⟨d, some (.payload p), k, m⟩
      = overallScoreOf ⟨d, some (.payload { p with warnings := [] }), k, m⟩ := by
    unfold overallScoreOf
    rw [htotal, hpassed, hcrit, hwarn]
  refine ⟨hscore, ?_, ?_, ?_, ?_⟩
  · show overallStatusOf _ = overallStatusOf _
    unfold overallStatusOf
    rw [hcrit, hwarn]
  · show riskLevelOf _ = riskLevelOf _
    unfold riskLevelOf
    rw [hcrit, hwarn]
  · show testStatusesOf _ = testStatusesOf _
    simp [testStatusesOf, checkOutcome, hdecomp]
  · intro w hw
    apply mem_base_recommendations
    simp only [baseRecsOf, checkOutcome, hdecomp]
    simp only [List.mem_append]
    left
    left
    right
    simp only [List.mem_append, List.mem_map]
    right
    exact ⟨w, hw, rfl⟩

/-- Witness for the amended claim C3 on a concrete Findings Map. -/
theorem spf_aux_warnings_propagate_only_witness :
    (evaluateSecurityStatus spfWarningMap).overall_score
        = (evaluateSecurityStatus { spfWarningMap with spf := some (.payload { spfWarningPayload with warnings := [] }) }).overall_score
    ∧ (evaluateSecurityStatus spfWarningMap).overall_status
        = (evaluateSecurityStatus { spfWarningMap with spf := some (.payload { spfWarningPayload with warnings := [] }) }).overall_status
    ∧ (evaluateSecurityStatus spfWarningMap).risk_level
        = (evaluateSecurityStatus { spfWarningMap with spf := some (.payload { spfWarningPayload with warnings := [] }) }).risk_level
    ∧ (evaluateSecurityStatus spfWarningMap).test_statuses
        = (evaluateSecurityStatus { spfWarningMap with spf := some (.payload { spfWarningPayload with warnings := [] }) }).test_statuses
    ∧ ∀ w ∈ spfWarningPayload.warnings,
        ("SPF Warning: " ++ w) ∈ (evaluateSecurityStatus spfWarningMap).recommendations :=
  spf_aux_warnings_propagate_only spfWarningMap spfWarningPayload rfl rfl

/-- Claim C4 as stated is false: an error entry for dkim is classified as
warning, not fail, because the error object has no has_dkim field and so
falls into the DKIM-not-detected branch of the evaluator. -/
theorem dkim_error_status_counterexample :
    (evaluateSecurityStatus dkimErrorMap).test_statuses.dkim = some "warning"
    ∧ (evaluateSecurityStatus dkimErrorMap).test_statuses.dkim ≠ some "fail" := by
  decide

/-- Claim C4 amended: when the dkim probe fails and the other three
succeed, the per-probe fallback still folds the three valid payloads into
the Findings Map next to the dkim error entry, and the evaluator
classifies dkim as warning (one extra warning issue) while the other three
checks keep exactly the statuses and scoring contributions their own
payloads produce. -/
theorem dkim_error_isolation (d : DmarcResult) (s : SpfResult) (m : MailServerResult)
    (msg : String) :
    runIndividualTests (.ok d) (.ok s) (.error msg) (.ok m)
      = { dmarc := some (.payload d), spf := some (.payload s),
          dkim := some (.errorEntry msg), mail_server := some (.payload m) }
    ∧ (evaluateSecurityStatus (runIndividualTests (.ok d) (.ok s) (.error msg) (.ok m))).test_statuses
      = { dmarc := (dmarcOutcome (.payload d)).status, spf := (spfOutcome (.payload s)).status,
          dkim := some "warning", mail_server := (mailServerOutcome (.payload m)).status }
    ∧ passedTestsOf (runIndividualTests (.ok d) (.ok s) (.error msg) (.ok m))
      = (dmarcOutcome (.payload d)).passed + (spfOutcome (.payload s)).passed
        + (mailServerOutcome (.payload m)).passed
    ∧ criticalIssuesOf (runIndividualTests (.ok d) (.ok s) (.error msg) (.ok m))
      = (dmarcOutcome (.payload d)).critical + (spfOutcome (.payload s)).critical
        + (mailServerOutcome (.payload m)).critical
    ∧ warningIssuesOf (runIndividualTests (.ok d) (.ok s) (.error msg) (.ok m))
      = (dmarcOutcome (.payload d)).warning + (spfOutcome (.payload s)).warning
        + (mailServerOutcome (.payload m)).warning + 1 := by
  refine ⟨rfl, rfl, rfl, rfl, ?_⟩
  simp [warningIssuesOf, checkOutcome, runIndividualTests, foldProbe, dkimOutcome, dkimMissingOutcome]
  omega

/-- Claim C5: adding one more FAIL-classified check to a Findings Map,
holding all other entries fixed, never increases the overall score. -/
theorem adding_fail_check_monotone (tr tr2 : FindingsMap) (h : AddsFailCheck tr tr2) :
    (evaluateSecurityStatus tr2).overall_score ≤ (evaluateSecurityStatus tr).overall_score := by
  have hs2 : (evaluateSecurityStatus tr2).overall_score = overallScoreOf tr2 := rfl
  have hs1 : (evaluateSecurityStatus tr).overall_score = overallScoreOf tr := rfl
  rw [hs1, hs2]
  unfold overallScoreOf
  rcases h with ⟨h0, ⟨e, h1, hf⟩, h2, h3, h4⟩ | ⟨h0, ⟨e, h1, hf⟩, h2, h3, h4⟩
    | ⟨h0, ⟨e, h1, hf⟩, h2, h3, h4⟩ | ⟨h0, ⟨e, h1, hf⟩, h2, h3, h4⟩
  · obtain ⟨hep, hec⟩ := dmarcOutcome_fail e hf
    have ht : totalTestsOf tr2 = totalTestsOf tr + 1 := by
      simp [totalTestsOf, present, h0, h1, h2, h3, h4]
      try omega
    have hp : passedTestsOf tr2 = passedTestsOf tr := by
      simp [passedTestsOf, checkOutcome, h0, h1, h2, h3, h4, hep]
    have hc : criticalIssuesOf tr2 = criticalIssuesOf tr + 1 := by
      simp [criticalIssuesOf, checkOutcome, h0, h1, h2, h3, h4, hec]
      try omega
    have hw : warningIssuesOf tr2 = warningIssuesOf tr + (dmarcOutcome e).warning := by
      simp [warningIssuesOf, checkOutcome, h0, h1, h2, h3, h4]
      try omega
    rw [ht, hp, hc, hw]
    exact scoreOf_fail_mono _ _ _ _ _ (passedTestsOf_le tr)
  · obtain ⟨hep, hec⟩ := spfOutcome_fail e hf
    have ht : totalTestsOf tr2 = totalTestsOf tr + 1 := by
      simp [totalTestsOf, present, h0, h1, h2, h3, h4]
      try omega
    have hp : passedTestsOf tr2 = passedTestsOf tr := by
      simp [passedTestsOf, checkOutcome, h0, h1, h2, h3, h4, hep]
    have hc : criticalIssuesOf tr2 = criticalIssuesOf tr + 1 := by
      simp [criticalIssuesOf, checkOutcome, h0, h1, h2, h3, h4, hec]
      try omega
    have hw : warningIssuesOf tr2 = warningIssuesOf tr + (spfOutcome e).warning := by
      simp [warningIssuesOf, checkOutcome, h0, h1, h2, h3, h4]
      try omega
    rw [ht, hp, hc, hw]
    exact scoreOf_fail_mono _ _ _ _ _ (passedTestsOf_le tr)
  · obtain ⟨hep, hec⟩ := dkimOutcome_fail e hf
    have ht : totalTestsOf tr2 = totalTestsOf tr + 1 := by
      simp [totalTestsOf, present, h0, h1, h2, h3, h4]
      try omega
    have hp : passedTestsOf tr2 = passedTestsOf tr := by
      simp [passedTestsOf, checkOutcome, h0, h1, h2, h3, h4, hep]
    have hc : criticalIssuesOf tr2 = criticalIssuesOf tr + 1 := by
      simp [criticalIssuesOf, checkOutcome, h0, h1, h2, h3, h4, hec]
      try omega
    have hw : warningIssuesOf tr2 = warningIssuesOf tr + (dkimOutcome e).warning := by
      simp [warningIssuesOf, checkOutcome, h0, h1, h2, h3, h4]
      try omega
    rw [ht, hp, hc, hw]
    exact scoreOf_fail_mono _ _ _ _ _ (passedTestsOf_le tr)
  · obtain ⟨hep, hec⟩ := mailServerOutcome_fail e hf
    have ht : totalTestsOf tr2 = totalTestsOf tr + 1 := by
      simp [totalTestsOf, present, h0, h1, h2, h3, h4]
      try omega
    have hp : passedTestsOf tr2 = passedTestsOf tr := by
      simp [passedTestsOf, checkOutcome, h0, h1, h2, h3, h4, hep]
    have hc : criticalIssuesOf tr2 = criticalIssuesOf tr + 1 := by
      simp [criticalIssuesOf, checkOutcome, h0, h1, h2, h3, h4, hec]
      try omega
    have hw : warningIssuesOf tr2 = warningIssuesOf tr + (mailServerOutcome e).warning := by
      simp [warningIssuesOf, checkOutcome, h0, h1, h2, h3, h4]
      try omega
    rw [ht, hp, hc, hw]
    exact scoreOf_fail_mono _ _ _ _ _ (passedTestsOf_le tr)

/-- Witness for claim C5: adding a failed dmarc probe entry to the empty
Findings Map does not increase the score. -/
theorem adding_fail_check_monotone_witness :
    AddsFailCheck { } { dmarc := some (.errorEntry "probe failed") }
    ∧ (evaluateSecurityStatus { dmarc := some (.errorEntry "probe failed") }).overall_score
        ≤ (evaluateSecurityStatus { }).overall_score := by
  have h : AddsFailCheck { } { dmarc := some (.errorEntry "probe failed") } :=
    Or.inl ⟨rfl, ⟨.errorEntry "probe failed", rfl, rfl⟩, rfl, rfl, rfl⟩
  exact ⟨h, adding_fail_check_monotone _ _ h⟩

theorem dmarc_clean_outcome (x : Option (Entry DmarcResult)) (h : dmarcPassClean x = true) :
    (checkOutcome dmarcOutcome x).passed = present x
    ∧ (checkOutcome dmarcOutcome x).critical = 0
    ∧ (checkOutcome dmarcOutcome x).warning = 0
    ∧ (checkOutcome dmarcOutcome x).recs = [] := by
  match x with
  | none => simp [checkOutcome, present]
  | some (.errorEntry m) => simp [dmarcPassClean] at h
  | some (.payload d) =>
    simp only [dmarcPassClean, Bool.and_eq_true, decide_eq_true_eq, Bool.or_eq_true] at h
    obtain ⟨⟨hd, hpol⟩, hrr⟩ := h
    simp only [checkOutcome, present, dmarcOutcome, dmarcPolicyOutcome, hd, hpol, if_true]
    rcases hrr with hr | hr <;> simp [hr]

theorem spf_clean_outcome (x : Option (Entry SpfResult)) (h : spfPassClean x = true) :
    (checkOutcome spfOutcome x).passed = present x
    ∧ (checkOutcome spfOutcome x).critical = 0
    ∧ (checkOutcome spfOutcome x).warning = 0
    ∧ (checkOutcome spfOutcome x).recs = [] := by
  match x with
  | none => simp [checkOutcome, present]
  | some (.errorEntry m) => simp [spfPassClean] at h
  | some (.payload p) =>
    simp only [spfPassClean, Bool.and_eq_true, decide_eq_true_eq] at h
    obtain ⟨⟨hs, hmech⟩, hw⟩ := h
    simp [checkOutcome, present, spfOutcome, spfMechanismOutcome, hs, hmech, hw]

theorem dkim_clean_outcome (x : Option (Entry DkimResult)) (h : dkimPassClean x = true) :
    (checkOutcome dkimOutcome x).passed = present x
    ∧ (checkOutcome dkimOutcome x).critical = 0
    ∧ (checkOutcome dkimOutcome x).warning = 0
    ∧ (checkOutcome dkimOutcome x).recs = [] := by
  match x with
  | none => simp [checkOutcome, present]
  | some (.errorEntry m) => simp [dkimPassClean] at h
  | some (.payload d) =>
    simp only [dkimPassClean, Bool.and_eq_true, Bool.not_eq_true'] at h
    obtain ⟨⟨hd, hv⟩, hk⟩ := h
    simp [checkOutcome, present, dkimOutcome, hd, hv, hk]

theorem mail_clean_outcome (x : Option (Entry MailServerResult)) (h : mailPassClean x = true) :
    (checkOutcome mailServerOutcome x).passed = present x
    ∧ (checkOutcome mailServerOutcome x).critical = 0
    ∧ (checkOutcome mailServerOutcome x).warning = 0
    ∧ (checkOutcome mailServerOutcome x).recs = [] := by
  match x with
  | none => simp [checkOutcome, present]
  | some (.errorEntry m) => simp [mailPassClean] at h
  | some (.payload m) =>
    simp only [mailPassClean, Bool.and_eq_true, decide_eq_true_eq] at h
    obtain ⟨⟨⟨ha, ht⟩, hu⟩, hr⟩ := h
    have hr2 : ¬ (m.response_time_ms > 5000) := not_lt.mpr hr
    simp [checkOutcome, present, mailServerOutcome, mailCapabilityOutcome, ha, ht, hu, hr2]

/-- Claim C6: when every present check resolves to PASS and no additional
warning trigger fires, the evaluation is a perfect one: score 100, status
pass, risk LOW, and no recommendations. -/
theorem all_pass_perfect_eval (tr : FindingsMap)
    (h1 : dmarcPassClean tr.dmarc = true) (h2 : spfPassClean tr.spf = true)
    (h3 : dkimPassClean tr.dkim = true) (h4 : mailPassClean tr.mail_server = true) :
    (evaluateSecurityStatus tr).overall_score = 100
    ∧ (evaluateSecurityStatus tr).overall_status = "pass"
    ∧ (evaluateSecurityStatus tr).risk_level = "LOW"
    ∧ (evaluateSecurityStatus tr).recommendations = [] := by
  obtain ⟨hp1, hc1, hw1, hr1⟩ := dmarc_clean_outcome tr.dmarc h1
  obtain ⟨hp2, hc2, hw2, hr2⟩ := spf_clean_outcome tr.spf h2
  obtain ⟨hp3, hc3, hw3, hr3⟩ := dkim_clean_outcome tr.dkim h3
  obtain ⟨hp4, hc4, hw4, hr4⟩ := mail_clean_outcome tr.mail_server h4
  have hpassed : passedTestsOf tr = totalTestsOf tr := by
    unfold passedTestsOf totalTestsOf
    rw [hp1, hp2, hp3, hp4]
  have hcrit : criticalIssuesOf tr = 0 := by
    unfold criticalIssuesOf
    rw [hc1, hc2, hc3, hc4]
  have hwarn : warningIssuesOf tr = 0 := by
    unfold warningIssuesOf
    rw [hw1, hw2, hw3, hw4]
  have hbase : baseRecsOf tr = [] := by
    unfold baseRecsOf
    rw [hr1, hr2, hr3, hr4]
    rfl
  have hscore : overallScoreOf tr = 100 := by
    unfold overallScoreOf
    rw [hpassed, hwarn, hcrit]
    exact scoreOf_all_pass _
  refine ⟨hscore, ?_, ?_, ?_⟩
  · show overallStatusOf tr = "pass"
    unfold overallStatusOf
    rw [hcrit, hwarn]
    simp
  · show riskLevelOf tr = "LOW"
    unfold riskLevelOf
    rw [hcrit, hwarn]
    simp
  · show recommendationsOf tr = []
    unfold recommendationsOf
    rw [hscore, hbase]
    norm_num

/-- Witness for claim C6 on the four-check all-pass Findings Map. -/
theorem all_pass_perfect_eval_witness :
    (evaluateSecurityStatus allPassMap).overall_score = 100
    ∧ (evaluateSecurityStatus allPassMap).overall_status = "pass"
    ∧ (evaluateSecurityStatus allPassMap).risk_level = "LOW"
    ∧ (evaluateSecurityStatus allPassMap).recommendations = [] :=
  all_pass_perfect_eval allPassMap (by decide) (by decide) (by decide) (by decide)

/-- Claim C8: if the unified runner fails in any way, no partial result of
it is used: the findings are exactly those of a complete per-probe retry
of all four checks, no runner evaluation is kept, and the evaluation is
computed by evaluateSecurityStatus.  Conversely, when the unified runner
succeeds with an embedded security_evaluation, that evaluation is returned
instead of invoking evaluateSecurityStatus. -/
theorem runner_fallback_and_precedence (rd : Except String DmarcResult)
    (rs : Except String SpfResult) (rk : Except String DkimResult)
    (rm : Except String MailServerResult) :
    (∀ msg : String,
      (runSecurityTests (.error msg) rd rs rk rm).findings = runIndividualTests rd rs rk rm
      ∧ (runSecurityTests (.error msg) rd rs rk rm).runner_evaluation = none
      ∧ chooseEvaluation (runSecurityTests (.error msg) rd rs rk rm)
          = evaluateSecurityStatus (runIndividualTests rd rs rk rm))
    ∧ (∀ (out : TestRunnerOutput) (e : SecurityEvaluation),
        out.security_evaluation = some e →
        chooseEvaluation (runSecurityTests (.ok out) rd rs rk rm) = e) := by
  constructor
  · intro msg
    exact ⟨rfl, rfl, rfl⟩
  · intro out e h
    simp [runSecurityTests, chooseEvaluation, h]

/-- Witness for claim C8: with a successful unified run carrying an
embedded evaluation, that evaluation is the one returned; the fallback
equalities are instantiated at a concrete failure message. -/
theorem runner_fallback_and_precedence_witness :
    chooseEvaluation
        (runSecurityTests (.ok runnerOutputEx) (.error "dns failure") (.error "dns failure")
          (.error "dns failure") (.error "dns failure"))
      = evaluateSecurityStatus allPassMap :=
  (runner_fallback_and_precedence (.error "dns failure") (.error "dns failure")
      (.error "dns failure") (.error "dns failure")).2
    runnerOutputEx (evaluateSecurityStatus allPassMap) rfl

/-- Claim C10: a present dmarc finding with has_dmarc true and a policy
outside reject, quarantine and none is counted in totalChecks but gets no
dmarc entry in test_statuses and contributes no pass, no critical and no
warning of its own (only the independent rua/ruf trigger can still fire),
so the base score is silently lowered by a check that has no status. -/
theorem unknown_policy_silent_check (tr : FindingsMap) (d : DmarcResult)
    (h : tr.dmarc = some (.payload d)) (hd : d.has_dmarc = true)
    (hp1 : d.policy ≠ some "reject") (hp2 : d.policy ≠ some "quarantine")
    (hp3 : d.policy ≠ some "none") :
    (evaluateSecurityStatus tr).test_statuses.dmarc = none
    ∧ totalTestsOf tr = totalTestsOf { tr with dmarc := none } + 1
    ∧ passedTestsOf tr = passedTestsOf { tr with dmarc := none }
    ∧ criticalIssuesOf tr = criticalIssuesOf { tr with dmarc := none }
    ∧ warningIssuesOf tr = warningIssuesOf { tr with dmarc := none }
        + (if !jsTruthy d.rua && !jsTruthy d.ruf then 1 else 0) := by
  have hpol : dmarcPolicyOutcome d = { } := by
    unfold dmarcPolicyOutcome
    rw [if_neg hp1, if_neg hp2, if_neg hp3]
  have ho : (dmarcOutcome (.payload d)).status = none
      ∧ (dmarcOutcome (.payload d)).passed = 0
      ∧ (dmarcOutcome (.payload d)).critical = 0
      ∧ (dmarcOutcome (.payload d)).warning
          = (if !jsTruthy d.rua && !jsTruthy d.ruf then 1 else 0) := by
    simp only [dmarcOutcome, hd, if_true, hpol]
    split_ifs <;> simp
  obtain ⟨ho1, ho2, ho3, ho4⟩ := ho
  obtain ⟨dm, s, k, m⟩ := tr
  dsimp only at h
  subst h
  refine ⟨?_, ?_, ?_, ?_, ?_⟩
  · show (testStatusesOf _).dmarc = none
    simp [testStatusesOf, checkOutcome, ho1]
  · simp [totalTestsOf, present]
    omega
  · simp [passedTestsOf, checkOutcome, ho2]
  · simp [criticalIssuesOf, checkOutcome, ho3]
  · simp [warningIssuesOf, checkOutcome, ho4]
    omega

/-- Witness for claim C10 on a concrete monitor-policy dmarc finding. -/
theorem unknown_policy_silent_check_witness :
    (evaluateSecurityStatus unknownPolicyMap).test_statuses.dmarc = none
    ∧ totalTestsOf unknownPolicyMap = totalTestsOf { unknownPolicyMap with dmarc := none } + 1
    ∧ passedTestsOf unknownPolicyMap = passedTestsOf { unknownPolicyMap with dmarc := none }
    ∧ criticalIssuesOf unknownPolicyMap = criticalIssuesOf { unknownPolicyMap with dmarc := none }
    ∧ warningIssuesOf unknownPolicyMap = warningIssuesOf { unknownPolicyMap with dmarc := none }
        + (if !jsTruthy (some "mailto:reports@example.com") && !jsTruthy none then 1 else 0) :=
  unknown_policy_silent_check unknownPolicyMap
    { has_dmarc := true, policy := some "monitor",
      rua := some "mailto:reports@example.com", ruf := none }
    rfl rfl (by decide) (by decide) (by decide)
